import Mathlib

/-!
# Verification of the Invoice_Generator domain core

Shallow embedding of the invoicing backend's domain model
(`backend/app/models/line_item.py`, `backend/app/models/invoice.py`,
`backend/app/models/client.py`), the client-deletion endpoint
(`backend/app/api/clients.py`) and the PDF export service
(`backend/app/services/pdf_export.py`), together with proofs of the
spec's claims about them.

Modelling conventions:
* Python `Decimal` values are modelled as exact rationals (`ℚ`): the code
  uses exact base-10 decimal arithmetic for all monetary math, and every
  operation the claims mention (addition, multiplication, division by 100)
  is exact on the decimals involved.
* `date` and `datetime` values are modelled as integers (ordinal
  day / timestamp); only their ordering matters to the code under study.
* UUIDs are modelled as `Nat`: the code only compares them for equality.
* A Python method that calls `datetime.now()` receives the current
  timestamp as an explicit argument `now` (two `now()` calls inside one
  method invocation are modelled by the same instant).
-/

namespace InvoiceGen

/-- Exact decimal values (`decimal.Decimal` in the source). -/
abbrev Dec := ℚ

/-- Calendar dates (`datetime.date`), as ordinal day numbers. -/
abbrev Date := ℤ

/-- Timestamps (`datetime.datetime`), as integers. -/
abbrev DateTime := ℤ

/-- `LineItem` domain model (`backend/app/models/line_item.py`). -/
structure LineItem where
  id : Nat
  invoice_id : Option Nat := none
  description : String
  quantity : Dec
  unit_rate : Dec
deriving Repr, DecidableEq

/-- The pydantic validation of one `LineItem`: `description` has
`min_length=1`, `quantity` and `unit_rate` are strictly positive
(`gt=0` field constraint and the `validate_positive` validator). -/
def LineItem.validB (li : LineItem) : Bool :=
  (1 ≤ li.description.length) && decide (0 < li.quantity) && decide (0 < li.unit_rate)

/-- `LineItem.calculate_amount`: `return self.quantity * self.unit_rate`. -/
def LineItem.calculate_amount (li : LineItem) : Dec :=
  li.quantity * li.unit_rate

/-- `InvoiceStatus` enumeration (`backend/app/models/invoice.py`). -/
inductive InvoiceStatus where
  | draft
  | sent
  | paid
  | overdue
deriving Repr, DecidableEq

/-- `Client` domain model (`backend/app/models/client.py`); only the
fields the PDF pipeline reads are relevant here. -/
structure Client where
  id : Nat
  user_id : Nat
  name : String
  email : String
  street : String
  city : String
  state : String
  zip_code : String
  country : String
  phone : String
deriving Repr, DecidableEq

/-- `Invoice` domain model (`backend/app/models/invoice.py`). -/
structure Invoice where
  id : Nat
  user_id : Nat
  client_id : Nat
  invoice_number : String
  invoice_date : Date
  due_date : Date
  tax_rate : Dec
  status : InvoiceStatus
  sent_date : Option DateTime
  paid_date : Option DateTime
  created_at : DateTime
  updated_at : DateTime
  line_items : List LineItem
  client : Option Client
deriving Repr, DecidableEq

/-- Validated construction of an `Invoice`, mirroring the pydantic model:
field constraints (`invoice_number` min_length 1, `tax_rate` in `[0,100]`,
each embedded line item validated by its own model), the
`validate_line_items_not_empty` field validator, and the `validate_dates`
model validator (`due_date < invoice_date` rejected).  On success the
defaulted fields are `status = DRAFT`, `sent_date = paid_date = None`,
`created_at = updated_at = now`, `client = None`. -/
def Invoice.create (i user_id client_id : Nat) (invoice_number : String)
    (invoice_date due_date : Date) (tax_rate : Dec)
    (line_items : List LineItem) (now : DateTime) : Except String Invoice :=
  if invoice_number.length == 0 then
    .error "invoice_number: String should have at least 1 character"
  else if decide (tax_rate < 0) || decide (100 < tax_rate) then
    .error "tax_rate: Input should be in the interval [0, 100]"
  else if !(line_items.all LineItem.validB) then
    .error "line_items: embedded line item failed validation"
  else if line_items.isEmpty then
    .error "At least one line item is required"
  else if decide (due_date < invoice_date) then
    .error "Due date cannot be before invoice date"
  else
    .ok { id := i, user_id := user_id, client_id := client_id
          invoice_number := invoice_number, invoice_date := invoice_date
          due_date := due_date, tax_rate := tax_rate
          status := .draft, sent_date := none, paid_date := none
          created_at := now, updated_at := now
          line_items := line_items, client := none }

/-- `Invoice.calculate_subtotal`:
`sum((item.calculate_amount() for item in self.line_items), start=Decimal("0"))`
— a left fold of `+` over the amounts, starting at `0`. -/
def Invoice.calculate_subtotal (inv : Invoice) : Dec :=
  (inv.line_items.map LineItem.calculate_amount).foldl (· + ·) 0

/-- `Invoice.calculate_tax`: `subtotal * (tax_rate / Decimal("100"))`. -/
def Invoice.calculate_tax (inv : Invoice) : Dec :=
  inv.calculate_subtotal * (inv.tax_rate / 100)

/-- `Invoice.calculate_total`: `calculate_subtotal() + calculate_tax()`. -/
def Invoice.calculate_total (inv : Invoice) : Dec :=
  inv.calculate_subtotal + inv.calculate_tax

/-- `Invoice.add_line_item`: appends the item and refreshes `updated_at`. -/
def Invoice.add_line_item (inv : Invoice) (item : LineItem) (now : DateTime) : Invoice :=
  { inv with line_items := inv.line_items ++ [item], updated_at := now }

/-- `Invoice.remove_line_item`: keeps the items whose `id` differs from
`item_id` and refreshes `updated_at`. -/
def Invoice.remove_line_item (inv : Invoice) (item_id : Nat) (now : DateTime) : Invoice :=
  { inv with line_items := inv.line_items.filter (fun item => item.id != item_id)
             updated_at := now }

/-- `Invoice.update_status`: unconditionally sets `status` and
`updated_at`, then sets `sent_date` (resp. `paid_date`) to the current
instant only when the new status is `SENT` (resp. `PAID`) and that date
was still `None`. -/
def Invoice.update_status (inv : Invoice) (new_status : InvoiceStatus)
    (now : DateTime) : Invoice :=
  let inv1 := { inv with status := new_status, updated_at := now }
  if new_status = .sent ∧ inv1.sent_date = none then
    { inv1 with sent_date := some now }
  else if new_status = .paid ∧ inv1.paid_date = none then
    { inv1 with paid_date := some now }
  else inv1

/-- `Invoice.check_overdue`: when `status == SENT` and
`date.today() > due_date`, set `status = OVERDUE` and refresh
`updated_at`; otherwise do nothing. -/
def Invoice.check_overdue (inv : Invoice) (today : Date) (now : DateTime) : Invoice :=
  if inv.status = .sent ∧ today > inv.due_date then
    { inv with status := .overdue, updated_at := now }
  else inv

/-- Folding `+` over rationals from an accumulator adds the list sum. -/
theorem foldl_add_eq_add_sum (l : List Dec) :
    ∀ a : Dec, l.foldl (· + ·) a = a + l.sum := by
  induction l with
  | nil => intro a; simp
  | cons x xs ih =>
    intro a
    simp only [List.foldl_cons, List.sum_cons, ih (a + x), add_assoc]

/-- The subtotal is the (exact) sum of the line-item amounts. -/
theorem calculate_subtotal_eq_sum (inv : Invoice) :
    inv.calculate_subtotal = (inv.line_items.map LineItem.calculate_amount).sum := by
  unfold Invoice.calculate_subtotal
  rw [foldl_add_eq_add_sum, zero_add]

/-- C1: `calculate_total()` = `calculate_subtotal()` + `calculate_tax()`,
`calculate_tax()` = `calculate_subtotal()` × (`tax_rate` / 100), and
`calculate_subtotal()` is the exact decimal sum of quantity × unit_rate
over all line items — for every invoice, whatever the number of items. -/
theorem invoice_totals_spec (inv : Invoice) :
    inv.calculate_total = inv.calculate_subtotal + inv.calculate_tax
    ∧ inv.calculate_tax = inv.calculate_subtotal * (inv.tax_rate / 100)
    ∧ inv.calculate_subtotal
        = (inv.line_items.map (fun li => li.quantity * li.unit_rate)).sum := by
  refine ⟨rfl, rfl, ?_⟩
  rw [calculate_subtotal_eq_sum]
  rfl

/-- C5: `calculate_amount()` is exactly quantity × unit_rate (exact
rational arithmetic, no rounding), for every positive quantity/rate pair,
and the item itself is untouched (it is a pure function of the item). -/
theorem line_item_amount_spec (li : LineItem)
    (hq : 0 < li.quantity) (hr : 0 < li.unit_rate) :
    li.calculate_amount = li.quantity * li.unit_rate
    ∧ 0 < li.calculate_amount := by
  exact ⟨rfl, mul_pos hq hr⟩

/-- A sample line item: quantity 40, unit rate 150 (amount 6000). -/
def sampleItem : LineItem :=
  { id := 1, invoice_id := none, description := "Web Development"
    quantity := 40, unit_rate := 150 }

/-- Witness for C5 at the sample item. -/
theorem line_item_amount_spec_witness :
    sampleItem.calculate_amount = sampleItem.quantity * sampleItem.unit_rate
    ∧ 0 < sampleItem.calculate_amount :=
  line_item_amount_spec sampleItem (by norm_num [sampleItem]) (by norm_num [sampleItem])

/-- C2: construction fails whenever the line-item list is empty, or
`due_date` is strictly before `invoice_date`, or some embedded line item
fails its own validation; and every successfully constructed invoice has
`status = draft` and both `sent_date` and `paid_date` unset. -/
theorem invoice_create_spec (i u c : Nat) (num : String) (invd dued : Date)
    (rate : Dec) (items : List LineItem) (now : DateTime) :
    ((items = [] ∨ dued < invd ∨ ∃ li ∈ items, LineItem.validB li = false) →
      ∀ inv, Invoice.create i u c num invd dued rate items now ≠ .ok inv)
    ∧ (∀ inv, Invoice.create i u c num invd dued rate items now = .ok inv →
        inv.status = .draft ∧ inv.sent_date = none ∧ inv.paid_date = none) := by
  constructor
  · intro h inv hok
    unfold Invoice.create at hok
    split at hok
    · exact Except.noConfusion hok
    split at hok
    · exact Except.noConfusion hok
    split at hok
    · exact Except.noConfusion hok
    split at hok
    · exact Except.noConfusion hok
    split at hok
    · exact Except.noConfusion hok
    rename_i h1 h2 h3 h4 h5
    rcases h with he | hd | ⟨li, hmem, hbad⟩
    · exact h4 (by simp [he])
    · exact h5 (by simpa using hd)
    · have hall : ∀ x ∈ items, x.validB = true := by simpa using h3
      exact absurd (hall li hmem) (by simp [hbad])
  · intro inv hok
    unfold Invoice.create at hok
    split at hok
    · exact Except.noConfusion hok
    split at hok
    · exact Except.noConfusion hok
    split at hok
    · exact Except.noConfusion hok
    split at hok
    · exact Except.noConfusion hok
    split at hok
    · exact Except.noConfusion hok
    cases hok
    exact ⟨rfl, rfl, rfl⟩

/-- A sample fully populated invoice in status `sent` (sent on instant 3). -/
def sentInvoice : Invoice :=
  { id := 10, user_id := 1, client_id := 2, invoice_number := "INV-2024-001"
    invoice_date := 0, due_date := 10, tax_rate := 85/10
    status := .sent, sent_date := some 3, paid_date := none
    created_at := 0, updated_at := 3
    line_items := [sampleItem], client := none }

/-- Witness for C2: creation with an empty line-item list cannot succeed
(in particular it never returns the sample invoice). -/
theorem invoice_create_spec_witness :
    Invoice.create 10 1 2 "INV-2024-001" 0 10 (85/10) [] 0 ≠ .ok sentInvoice :=
  (invoice_create_spec 10 1 2 "INV-2024-001" 0 10 (85/10) [] 0).1
    (Or.inl rfl) sentInvoice

/-- C3: when `sent_date` is already set, `update_status SENT` keeps that
`sent_date`, still sets `status = sent` and refreshes `updated_at`;
symmetrically an already-set `paid_date` is never overwritten by
`update_status PAID` (which still sets `status = paid` and `updated_at`). -/
theorem update_status_idempotent_dates (inv : Invoice) (t : DateTime) :
    (∀ d, inv.sent_date = some d →
      (inv.update_status .sent t).sent_date = some d
      ∧ (inv.update_status .sent t).status = .sent
      ∧ (inv.update_status .sent t).updated_at = t)
    ∧ (∀ d, inv.paid_date = some d →
      (inv.update_status .paid t).paid_date = some d
      ∧ (inv.update_status .paid t).status = .paid
      ∧ (inv.update_status .paid t).updated_at = t) := by
  constructor
  · intro d hd
    simp [Invoice.update_status, hd]
  · intro d hd
    simp [Invoice.update_status, hd]

/-- Witness for C3 at the sample sent invoice: a second `SENT` update at
instant 7 keeps the original sent date 3. -/
theorem update_status_idempotent_dates_witness :
    (sentInvoice.update_status .sent 7).sent_date = some 3
    ∧ (sentInvoice.update_status .sent 7).status = .sent
    ∧ (sentInvoice.update_status .sent 7).updated_at = 7 :=
  (update_status_idempotent_dates sentInvoice 7).1 3 rfl

/-- C10 (frame): `update_status` changes only `status`, `updated_at` and
at most the date field matching the new status (and that one only when it
was unset): every other field — line items, client and user references,
invoice number, dates, tax rate, `created_at` — is unchanged, an already
set `sent_date`/`paid_date` is unchanged, the date field not matching the
new status is unchanged, and marking `PAID` while `sent_date` is unset
leaves `sent_date` unset. -/
theorem update_status_frame (inv : Invoice) (s : InvoiceStatus) (t : DateTime) :
    (s = .paid → inv.sent_date = none → (inv.update_status s t).sent_date = none)
    ∧ (s ≠ .sent → (inv.update_status s t).sent_date = inv.sent_date)
    ∧ (s ≠ .paid → (inv.update_status s t).paid_date = inv.paid_date)
    ∧ (inv.sent_date ≠ none → (inv.update_status s t).sent_date = inv.sent_date)
    ∧ (inv.paid_date ≠ none → (inv.update_status s t).paid_date = inv.paid_date)
    ∧ (inv.update_status s t).status = s
    ∧ (inv.update_status s t).updated_at = t
    ∧ (inv.update_status s t).id = inv.id
    ∧ (inv.update_status s t).user_id = inv.user_id
    ∧ (inv.update_status s t).client_id = inv.client_id
    ∧ (inv.update_status s t).invoice_number = inv.invoice_number
    ∧ (inv.update_status s t).invoice_date = inv.invoice_date
    ∧ (inv.update_status s t).due_date = inv.due_date
    ∧ (inv.update_status s t).tax_rate = inv.tax_rate
    ∧ (inv.update_status s t).created_at = inv.created_at
    ∧ (inv.update_status s t).line_items = inv.line_items
    ∧ (inv.update_status s t).client = inv.client := by
  simp only [Invoice.update_status]
  split_ifs with h1 h2
  · obtain ⟨hs, hnone⟩ := h1
    subst hs
    simp [hnone]
  · obtain ⟨hs, hnone⟩ := h2
    subst hs
    simp [hnone]
  · simp

/-- A sample invoice still in `draft` with both optional dates unset. -/
def draftInvoice : Invoice :=
  { id := 11, user_id := 1, client_id := 2, invoice_number := "INV-2024-002"
    invoice_date := 0, due_date := 10, tax_rate := 0
    status := .draft, sent_date := none, paid_date := none
    created_at := 0, updated_at := 0
    line_items := [sampleItem], client := none }

/-- Witness for C10: marking the sample draft invoice paid directly
leaves `sent_date` unset. -/
theorem update_status_frame_witness :
    (draftInvoice.update_status .paid 5).sent_date = none :=
  (update_status_frame draftInvoice .paid 5).1 rfl rfl

/-- When no element of `l` has id `j`, filtering out id `j` keeps `l`. -/
theorem filter_id_ne_of_not_mem (j : Nat) (l : List LineItem)
    (h : j ∉ l.map LineItem.id) :
    l.filter (fun item => item.id != j) = l := by
  refine List.filter_eq_self.mpr ?_
  intro a ha
  simp only [bne_iff_ne, ne_eq]
  intro hij
  exact h (by simpa [hij] using List.mem_map_of_mem LineItem.id ha)

/-- Removing one occurrence (ids pairwise distinct) subtracts its amount
from the sum of amounts. -/
theorem sum_amounts_filter_id_ne (item : LineItem) :
    ∀ l : List LineItem, (l.map LineItem.id).Nodup → item ∈ l →
      ((l.filter (fun li => li.id != item.id)).map LineItem.calculate_amount).sum
        = (l.map LineItem.calculate_amount).sum - item.calculate_amount := by
  intro l
  induction l with
  | nil => intro _ hmem; cases hmem
  | cons x xs ih =>
    intro hnodup hmem
    rw [List.map_cons, List.nodup_cons] at hnodup
    obtain ⟨hx, hxs⟩ := hnodup
    rcases List.mem_cons.mp hmem with hxi | hxi
    · subst hxi
      rw [List.filter_cons_of_neg (by simp), filter_id_ne_of_not_mem _ _ hx]
      simp only [List.map_cons, List.sum_cons]
      ring
    · have hid : x.id ≠ item.id := by
        intro hij
        exact hx (hij ▸ List.mem_map_of_mem LineItem.id hxi)
      rw [List.filter_cons_of_pos (by simpa using hid)]
      simp only [List.map_cons, List.sum_cons, ih hxs hxi]
      ring

/-- C6: adding a line item raises the subtotal by exactly the item's
amount; removing an item present in the collection (line-item ids being
pairwise distinct, as they are generated uniquely) lowers the subtotal by
exactly that item's amount. -/
theorem subtotal_add_remove_spec (inv : Invoice) (item : LineItem) (t : DateTime) :
    (inv.add_line_item item t).calculate_subtotal
        = inv.calculate_subtotal + item.calculate_amount
    ∧ ((inv.line_items.map LineItem.id).Nodup → item ∈ inv.line_items →
        (inv.remove_line_item item.id t).calculate_subtotal
          = inv.calculate_subtotal - item.calculate_amount) := by
  constructor
  · rw [calculate_subtotal_eq_sum, calculate_subtotal_eq_sum]
    simp [Invoice.add_line_item]
  · intro hnodup hmem
    rw [calculate_subtotal_eq_sum, calculate_subtotal_eq_sum]
    simpa [Invoice.remove_line_item] using
      sum_amounts_filter_id_ne item inv.line_items hnodup hmem

/-- A second sample item: quantity 3, rate 100 (amount 300). -/
def sampleItem2 : LineItem :=
  { id := 2, invoice_id := none, description := "Consulting"
    quantity := 3, unit_rate := 100 }

/-- A draft invoice holding both sample items (subtotal 6300). -/
def twoItemInvoice : Invoice :=
  { id := 12, user_id := 1, client_id := 2, invoice_number := "INV-2024-003"
    invoice_date := 0, due_date := 10, tax_rate := 10
    status := .draft, sent_date := none, paid_date := none
    created_at := 0, updated_at := 0
    line_items := [sampleItem, sampleItem2], client := none }

/-- Witness for C6 at the two-item invoice: removing the second item
lowers the subtotal by its amount 300. -/
theorem subtotal_add_remove_spec_witness :
    (twoItemInvoice.remove_line_item sampleItem2.id 9).calculate_subtotal
      = twoItemInvoice.calculate_subtotal - sampleItem2.calculate_amount :=
  (subtotal_add_remove_spec twoItemInvoice sampleItem2 9).2 (by decide) (by decide)

/-- C7: `check_overdue` sets `status = overdue` and refreshes
`updated_at` exactly when the status is `sent` and today is strictly
after the due date; in every other case the invoice is returned entirely
unchanged, `updated_at` included. -/
theorem check_overdue_spec (inv : Invoice) (today : Date) (t : DateTime) :
    (inv.status = .sent ∧ inv.due_date < today →
      inv.check_overdue today t = { inv with status := .overdue, updated_at := t })
    ∧ (¬(inv.status = .sent ∧ inv.due_date < today) →
      inv.check_overdue today t = inv) := by
  constructor
  · intro h
    simp only [Invoice.check_overdue]
    rw [if_pos ⟨h.1, h.2⟩]
  · intro h
    simp only [Invoice.check_overdue]
    rw [if_neg (by simpa [gt_iff_lt] using h)]

/-- Witness for C7: the sample sent invoice (due day 10) checked on day
20 becomes overdue with `updated_at` refreshed. -/
theorem check_overdue_spec_witness :
    sentInvoice.check_overdue 20 21
      = { sentInvoice with status := .overdue, updated_at := 21 } :=
  (check_overdue_spec sentInvoice 20 21).1 ⟨rfl, by decide⟩

/-- One lifecycle operation: a call to `update_status` (with its status
argument) or to `check_overdue` (with the current day), each carrying the
instant at which it runs. -/
inductive LifecycleOp where
  | updateStatus : InvoiceStatus → DateTime → LifecycleOp
  | checkOverdue : Date → DateTime → LifecycleOp
deriving Repr, DecidableEq

/-- Apply one lifecycle operation to an invoice. -/
def Invoice.applyOp (inv : Invoice) : LifecycleOp → Invoice
  | .updateStatus s t => inv.update_status s t
  | .checkOverdue d t => inv.check_overdue d t

/-- An operation is draft-free when it is not `update_status DRAFT`. -/
def LifecycleOp.nonDraft : LifecycleOp → Bool
  | .updateStatus s _ => s != .draft
  | .checkOverdue _ _ => true

/-- `update_status` always ends in the requested status. -/
theorem update_status_status (inv : Invoice) (s : InvoiceStatus) (t : DateTime) :
    (inv.update_status s t).status = s := by
  simp only [Invoice.update_status]
  split_ifs <;> rfl

/-- `check_overdue` never produces the `draft` status from a non-draft
invoice. -/
theorem check_overdue_not_draft (inv : Invoice) (d : Date) (t : DateTime)
    (h : inv.status ≠ .draft) : (inv.check_overdue d t).status ≠ .draft := by
  simp only [Invoice.check_overdue]
  split_ifs with hc
  · simp
  · exact h

/-- C4 counterexample: the claim fails as stated — calling
`update_status DRAFT` on the sample sent invoice returns its status to
`draft`, because `update_status` sets any requested status with no guard. -/
theorem update_status_draft_regression :
    sentInvoice.status ≠ .draft
    ∧ (sentInvoice.update_status .draft 7).status = .draft := by
  exact ⟨by decide, rfl⟩

/-- C4 (amended): once the status has left `draft`, no sequence of
lifecycle operations in which every `update_status` call requests a
non-`draft` status (i.e. the transitions of the spec's table: mark sent,
mark paid, overdue check) ever returns the status to `draft`. -/
theorem lifecycle_no_draft_regression (inv : Invoice) (ops : List LifecycleOp)
    (hops : ∀ op ∈ ops, op.nonDraft = true)
    (h : inv.status ≠ .draft) :
    (ops.foldl Invoice.applyOp inv).status ≠ .draft := by
  induction ops generalizing inv with
  | nil => exact h
  | cons op rest ih =>
    simp only [List.foldl_cons]
    refine ih _ (fun o ho => hops o (List.mem_cons_of_mem _ ho)) ?_
    have hop := hops op (List.mem_cons_self _ _)
    cases op with
    | updateStatus s t =>
      simp only [LifecycleOp.nonDraft, bne_iff_ne, ne_eq] at hop
      simpa [Invoice.applyOp, update_status_status] using hop
    | checkOverdue d t =>
      exact check_overdue_not_draft inv d t h

/-- Witness for the amended C4: starting from the sample sent invoice,
marking paid, rechecking overdue and re-marking sent never reaches
`draft`. -/
theorem lifecycle_no_draft_regression_witness :
    ([LifecycleOp.updateStatus .paid 8, LifecycleOp.checkOverdue 20 9,
      LifecycleOp.updateStatus .sent 10].foldl
        Invoice.applyOp sentInvoice).status ≠ .draft :=
  lifecycle_no_draft_regression sentInvoice
    [.updateStatus .paid 8, .checkOverdue 20 9, .updateStatus .sent 10]
    (by decide) (by decide)

/-- A persisted client row, reduced to the fields the deletion endpoint
filters on. -/
structure ClientRow where
  id : Nat
  user_id : Nat
deriving Repr, DecidableEq

/-- A persisted invoice row, reduced to the fields the deletion endpoint
filters on. -/
structure InvoiceRow where
  id : Nat
  user_id : Nat
  client_id : Nat
deriving Repr, DecidableEq

/-- The relevant tables of the data store. -/
structure Store where
  clients : List ClientRow
  invoices : List InvoiceRow
deriving Repr, DecidableEq

/-- Outcome of the client-deletion endpoint. -/
inductive DeleteResult where
  | deleted
  | referentialIntegrityError
  | notFoundError
deriving Repr, DecidableEq

/-- `delete_client` endpoint (`backend/app/api/clients.py`): it first
selects the invoices of the current user that reference the client; when
any exist it raises 400 ("Cannot delete client with associated invoices")
before touching the clients table; otherwise it deletes the client rows
matching both id and user and raises 404 when no row was deleted. -/
def delete_client (s : Store) (current_user client_id : Nat) : Store × DeleteResult :=
  let invoice_check := s.invoices.filter
    (fun i => i.client_id == client_id && i.user_id == current_user)
  if !invoice_check.isEmpty then (s, .referentialIntegrityError)
  else
    let deleted := s.clients.filter
      (fun c => c.id == client_id && c.user_id == current_user)
    if deleted.isEmpty then (s, .notFoundError)
    else
      let remaining := s.clients.filter
        (fun c => !(c.id == client_id && c.user_id == current_user))
      ({ s with clients := remaining }, .deleted)

/-- C8: whenever at least one invoice of the same user references the
client, deletion fails with the referential-integrity error and the store
(in particular the client record) is left unchanged; and the deletion
outcome is reached only when no such invoice exists. -/
theorem delete_client_spec (s : Store) (u cid : Nat) :
    ((∃ i ∈ s.invoices, i.user_id = u ∧ i.client_id = cid) →
      delete_client s u cid = (s, .referentialIntegrityError))
    ∧ ((delete_client s u cid).2 = .deleted →
      ∀ i ∈ s.invoices, ¬(i.user_id = u ∧ i.client_id = cid)) := by
  constructor
  · rintro ⟨i, hmem, hu, hc⟩
    have hi : i ∈ s.invoices.filter
        (fun i => i.client_id == cid && i.user_id == u) :=
      List.mem_filter.mpr ⟨hmem, by simp [hu, hc]⟩
    have hcond : (!(s.invoices.filter
        (fun i => i.client_id == cid && i.user_id == u)).isEmpty) = true := by
      simp only [Bool.not_eq_true', List.isEmpty_eq_false_iff_exists_mem]
      exact ⟨i, hi⟩
    simp only [delete_client]
    rw [if_pos hcond]
  · rintro hdel i hmem ⟨hu, hc⟩
    have hi : i ∈ s.invoices.filter
        (fun i => i.client_id == cid && i.user_id == u) :=
      List.mem_filter.mpr ⟨hmem, by simp [hu, hc]⟩
    have hcond : (!(s.invoices.filter
        (fun i => i.client_id == cid && i.user_id == u)).isEmpty) = true := by
      simp only [Bool.not_eq_true', List.isEmpty_eq_false_iff_exists_mem]
      exact ⟨i, hi⟩
    simp only [delete_client] at hdel
    rw [if_pos hcond] at hdel
    exact absurd hdel (by simp)

/-- Witness for C8: in a one-client store whose single invoice references
that client, deletion by its user fails with the referential-integrity
error, leaving the store untouched. -/
theorem delete_client_spec_witness :
    delete_client (Store.mk [ClientRow.mk 2 1] [InvoiceRow.mk 10 1 2]) 1 2
      = (Store.mk [ClientRow.mk 2 1] [InvoiceRow.mk 10 1 2],
         .referentialIntegrityError) :=
  (delete_client_spec (Store.mk [ClientRow.mk 2 1] [InvoiceRow.mk 10 1 2]) 1 2).1
    ⟨InvoiceRow.mk 10 1 2, by decide, rfl, rfl⟩

/-- The literal `%PDF-` signature bytes (0x25 0x50 0x44 0x46 0x2D). -/
def pdfSignature : List Nat := [37, 80, 68, 70, 45]

/-- Modelled from the spec: byte-level PDF serialization is performed by
the external rendering library (`SimpleDocTemplate(...).build(elements)`
of reportlab), which is not part of this repository's source. Per the
spec's external-interface contract, "output begins with the literal
document signature `%PDF-`": the builder emits the signature bytes, then
the serialized content of the laid-out elements, then the end-of-file
trailer. Visual layout and 2-decimal numeric formatting are abstracted
into plain string rendering of each element. -/
def docTemplateBuild (elements : List String) : List Nat :=
  pdfSignature
    ++ (String.join elements).toList.map Char.toNat
    ++ ("%%EOF".toList.map Char.toNat)

/-- Upper-cased status label rendered in the PDF header. -/
def statusLabel : InvoiceStatus → String
  | .draft => "DRAFT"
  | .sent => "SENT"
  | .paid => "PAID"
  | .overdue => "OVERDUE"

namespace PDFExportService

/-- `_create_header`: title, invoice number, both dates, status label. -/
def createHeader (inv : Invoice) : List String :=
  ["INVOICE",
   "Invoice Number: " ++ inv.invoice_number,
   "Invoice Date: " ++ toString inv.invoice_date,
   "Due Date: " ++ toString inv.due_date,
   "Status: " ++ statusLabel inv.status]

/-- `_create_client_section`: emitted only when a resolved client is
attached; silently omitted otherwise. -/
def createClientSection (inv : Invoice) : List String :=
  match inv.client with
  | none => []
  | some c =>
      ["Bill To:", c.name, c.street,
       c.city ++ ", " ++ c.state ++ " " ++ c.zip_code,
       c.country,
       "Email: " ++ c.email,
       "Phone: " ++ c.phone]

/-- `_create_line_items_table`: one header row plus one row per item,
with the amount recomputed at render time. -/
def createLineItemsTable (inv : Invoice) : List String :=
  "Description Quantity Unit Rate Amount" ::
    inv.line_items.map (fun item =>
      item.description ++ " " ++ toString item.quantity
        ++ " $" ++ toString item.unit_rate
        ++ " $" ++ toString item.calculate_amount)

/-- `_create_totals_section`: subtotal, tax (label carrying the tax
rate), total. -/
def createTotalsSection (inv : Invoice) : List String :=
  ["Subtotal: $" ++ toString inv.calculate_subtotal,
   "Tax (" ++ toString inv.tax_rate ++ "%): $" ++ toString inv.calculate_tax,
   "Total: $" ++ toString inv.calculate_total]

/-- `_generate_pdf`: assembles the four sections in order and hands them
to the document builder. -/
def generate_pdf (inv : Invoice) : List Nat :=
  docTemplateBuild
    (createHeader inv ++ createClientSection inv
      ++ createLineItemsTable inv ++ createTotalsSection inv)

/-- `export_invoice`: returns the bytes the builder wrote to the buffer. -/
def export_invoice (inv : Invoice) : List Nat :=
  generate_pdf inv

end PDFExportService

/-- C9: for every invoice, the PDF export is a non-empty byte sequence
whose first 5 bytes are exactly the `%PDF-` signature bytes. -/
theorem pdf_export_signature_spec (inv : Invoice) :
    PDFExportService.export_invoice inv ≠ []
    ∧ (PDFExportService.export_invoice inv).take 5 = pdfSignature
    ∧ pdfSignature = "%PDF-".toList.map Char.toNat := by
  refine ⟨?_, ?_, by decide⟩
  · simp [PDFExportService.export_invoice, PDFExportService.generate_pdf,
      docTemplateBuild, pdfSignature]
  · simp only [PDFExportService.export_invoice, PDFExportService.generate_pdf,
      docTemplateBuild, pdfSignature]
    rfl

end InvoiceGen
